import Mathlib

/-!
Verification development for the assistant repository.

Shallow embedding of the core modules:
  - llm_invocation.py  (retry invoker and error classification)
  - tool_error_handler.py  (error formatting for tool results)
  - sidekick.py  (tool node, worker, evaluator, routing, state machine,
    run_superstep, cleanup)

Conventions of the embedding:
  - Python exceptions are values of `PyError`; fallible calls return
    `Except PyError a`.
  - An external LLM call is modelled as a function from the attempt
    number (1-based) to the call outcome, so that a stub can fail on
    some attempts and succeed on others.
  - Time (sleeps, backoff delays, jitter) only affects waiting, never
    control flow, so delays are not modelled.
  - LangGraph state-channel merging appends returned messages to the
    state message list and replaces scalar fields when the node update
    carries them.
-/

namespace Assistant

/-- Message roles, mirroring SystemMessage / HumanMessage / AIMessage /
ToolMessage in langchain. -/
inductive Role
  | system
  | user
  | assistant
  | tool
deriving DecidableEq, Repr

/-- A tool-call request emitted by the worker LLM:
`\x7bid, name, args\x7d` entries of `AIMessage.tool_calls`. -/
structure ToolCall where
  name : String
  args : List (String × String)
  id : String
deriving DecidableEq, Repr

/-- One conversational message.  `tool_calls` is nonempty only on
assistant messages that request tool execution; `tool_call_id` and
`name` are set on tool-result messages. -/
structure Message where
  role : Role
  content : String
  tool_calls : List ToolCall := []
  tool_call_id : Option String := none
  name : Option String := none
deriving DecidableEq, Repr

/-- `isinstance(message, SystemMessage)` check. -/
def Message.isSystem (m : Message) : Bool :=
  match m.role with
  | Role.system => true
  | _ => false

/-- The exception kinds that llm_invocation.py distinguishes, plus a
catch-all constructor for every other exception type. -/
inductive PyError
  | rateLimitError (msg : String)
  | apiConnectionError (msg : String)
  | apiGenericError (msg : String)
  | authenticationError (msg : String)
  | valueError (msg : String)
  | typeError (msg : String)
  | otherError (typeName : String) (msg : String)
deriving DecidableEq, Repr

/-- `type(error).__name__`. -/
def pyErrorName : PyError → String
  | PyError.rateLimitError _ => "RateLimitError"
  | PyError.apiConnectionError _ => "APIConnectionError"
  | PyError.apiGenericError _ => "APIError"
  | PyError.authenticationError _ => "AuthenticationError"
  | PyError.valueError _ => "ValueError"
  | PyError.typeError _ => "TypeError"
  | PyError.otherError n _ => n

/-- `str(error)`. -/
def pyErrorText : PyError → String
  | PyError.rateLimitError s => s
  | PyError.apiConnectionError s => s
  | PyError.apiGenericError s => s
  | PyError.authenticationError s => s
  | PyError.valueError s => s
  | PyError.typeError s => s
  | PyError.otherError _ s => s

/-- is_retryable_error: RateLimitError, APIConnectionError and APIError
are retried.  (In the openai package AuthenticationError is a subclass
of APIError, but the invoker checks is_fatal_error first, so that case
never reaches this predicate.) -/
def is_retryable_error : PyError → Bool
  | PyError.rateLimitError _ => true
  | PyError.apiConnectionError _ => true
  | PyError.apiGenericError _ => true
  | _ => false

/-- is_fatal_error: AuthenticationError plus ValueError / TypeError are
fatal and never retried. -/
def is_fatal_error : PyError → Bool
  | PyError.authenticationError _ => true
  | PyError.valueError _ => true
  | PyError.typeError _ => true
  | _ => false

/-- LLMInvocationError: raised when LLM invocation fails after all
retries.  Carries the original error, the attempt index and the
configured maximum. -/
structure LLMInvocationError where
  message : String
  original_error : Option PyError
  attempt : Nat
  max_attempts : Nat
deriving DecidableEq, Repr

/-- `type(e.original_error).__name__` as used by worker/evaluator
fallback messages. -/
def LLMInvocationError.originalErrorName (e : LLMInvocationError) : String :=
  match e.original_error with
  | some pe => pyErrorName pe
  | none => "NoneType"

/-- `str(e.original_error)` as used by worker/evaluator fallback
messages. -/
def LLMInvocationError.originalErrorText (e : LLMInvocationError) : String :=
  match e.original_error with
  | some pe => pyErrorText pe
  | none => "None"

/-- Result of running the retry loop: a successful value, a raised
LLMInvocationError, or the implicit `None` return a Python `for` loop
produces when `range(1, max_retries + 1)` is empty. -/
inductive RetryOutcome (α : Type)
  | ok (a : α)
  | raised (e : LLMInvocationError)
  | fellThrough
deriving DecidableEq, Repr

/-- Outcome of the loop together with the number of times the wrapped
operation was actually invoked. -/
structure RetryTrace (α : Type) where
  outcome : RetryOutcome α
  calls : Nat
deriving DecidableEq, Repr

/-- Body of invoke_with_retry_sync: `for attempt in
range(1, max_retries + 1)`, with `remaining` counting the iterations
left (`remaining = max_retries + 1 - attempt` at every call site). -/
def retryLoopSync {α : Type} (f : Nat → Except PyError α) (max_retries : Nat)
    (operation_name : String) (attempt : Nat) : Nat → RetryTrace α
  | 0 => ⟨RetryOutcome.fellThrough, 0⟩
  | Nat.succ remaining =>
    match f attempt with
    | Except.ok a => ⟨RetryOutcome.ok a, 1⟩
    | Except.error e =>
      if is_fatal_error e then
        ⟨RetryOutcome.raised
          ⟨operation_name ++ " failed with fatal error", some e, attempt, max_retries⟩, 1⟩
      else if is_retryable_error e = false then
        ⟨RetryOutcome.raised
          ⟨operation_name ++ " failed with non-retryable error", some e, attempt, max_retries⟩, 1⟩
      else if max_retries ≤ attempt then
        ⟨RetryOutcome.raised
          ⟨operation_name ++ " failed after " ++ toString max_retries ++ " attempts",
            some e, attempt, max_retries⟩, 1⟩
      else
        let t := retryLoopSync f max_retries operation_name (attempt + 1) remaining
        ⟨t.outcome, t.calls + 1⟩

/-- Body of the async invoke_with_retry.  The source duplicates the
synchronous loop verbatim (only the sleep differs), so the embedding
repeats it and the equivalence is proved as a theorem. -/
def retryLoopAsync {α : Type} (f : Nat → Except PyError α) (max_retries : Nat)
    (operation_name : String) (attempt : Nat) : Nat → RetryTrace α
  | 0 => ⟨RetryOutcome.fellThrough, 0⟩
  | Nat.succ remaining =>
    match f attempt with
    | Except.ok a => ⟨RetryOutcome.ok a, 1⟩
    | Except.error e =>
      if is_fatal_error e then
        ⟨RetryOutcome.raised
          ⟨operation_name ++ " failed with fatal error", some e, attempt, max_retries⟩, 1⟩
      else if is_retryable_error e = false then
        ⟨RetryOutcome.raised
          ⟨operation_name ++ " failed with non-retryable error", some e, attempt, max_retries⟩, 1⟩
      else if max_retries ≤ attempt then
        ⟨RetryOutcome.raised
          ⟨operation_name ++ " failed after " ++ toString max_retries ++ " attempts",
            some e, attempt, max_retries⟩, 1⟩
      else
        let t := retryLoopAsync f max_retries operation_name (attempt + 1) remaining
        ⟨t.outcome, t.calls + 1⟩

/-- invoke_with_retry_sync (llm_invocation.py).  `initial_delay` and
`max_delay` only control sleeping and are not modelled. -/
def invoke_with_retry_sync {α : Type} (f : Nat → Except PyError α)
    (max_retries : Nat) (operation_name : String) : RetryTrace α :=
  retryLoopSync f max_retries operation_name 1 max_retries

/-- invoke_with_retry (async variant, llm_invocation.py). -/
def invoke_with_retry {α : Type} (f : Nat → Except PyError α)
    (max_retries : Nat) (operation_name : String) : RetryTrace α :=
  retryLoopAsync f max_retries operation_name 1 max_retries

/-- format_tool_error_for_llm (tool_error_handler.py). -/
def format_tool_error_for_llm (tool_name error_type error_message : String) : String :=
  "Tool Execution Failed\n" ++
  "Tool: " ++ tool_name ++ "\n" ++
  "Error Type: " ++ error_type ++ "\n" ++
  "Message: " ++ error_message ++ "\n\n" ++
  "The tool failed and cannot be used for this request."

/-- A registered tool: a name plus the behaviour of `tool.invoke`,
which returns a string result or raises. -/
structure SimpleTool where
  name : String
  run : List (String × String) → Except PyError String

/-- Lookup in the registry built by
`\x7btool.name: tool for tool in tools\x7d`; on duplicate names the
last binding wins, hence the search over the reversed list. -/
def lookupTool (tools : List SimpleTool) (nm : String) : Option SimpleTool :=
  tools.reverse.find? (fun t => t.name == nm)

/-- ErrorHandlingToolNode (sidekick.py): custom tool execution node. -/
structure ErrorHandlingToolNode where
  tools : List SimpleTool

/-- Processing of a single tool call inside the `for tool_call in
tool_calls` loop: the unknown-tool ValueError and any exception raised
by `tool.invoke` are caught and turned into an error ToolMessage via
format_tool_error_for_llm; a success yields a plain ToolMessage. -/
def ErrorHandlingToolNode.runOne (node : ErrorHandlingToolNode) (tc : ToolCall) : Message :=
  match lookupTool node.tools tc.name with
  | none =>
    { role := Role.tool
      content := format_tool_error_for_llm tc.name "ValueError"
        ("Tool " ++ tc.name ++ " not found in registry")
      tool_call_id := some tc.id
      name := some tc.name }
  | some tool =>
    match tool.run tc.args with
    | Except.ok r =>
      { role := Role.tool, content := r, tool_call_id := some tc.id, name := some tc.name }
    | Except.error e =>
      { role := Role.tool
        content := format_tool_error_for_llm tc.name (pyErrorName e) (pyErrorText e)
        tool_call_id := some tc.id
        name := some tc.name }

/-- ErrorHandlingToolNode.__call__: reads the tool calls of the last
message and returns the `messages` value of the state update (one
ToolMessage per request; empty when there are no requests). -/
def ErrorHandlingToolNode.call (node : ErrorHandlingToolNode)
    (messages : List Message) : List Message :=
  match messages.getLast? with
  | none => []
  | some last =>
    if last.tool_calls = [] then []
    else last.tool_calls.map node.runOne

/-- The batch of tool-call requests the node is asked to execute:
those on the last message, or none at all. -/
def lastToolCalls (messages : List Message) : List ToolCall :=
  match messages.getLast? with
  | none => []
  | some last => last.tool_calls

/-- EvaluatorOutput (sidekick.py): structured verdict of the judge. -/
structure EvaluatorOutput where
  feedback : String
  success_criteria_met : Bool
  user_input_needed : Bool
deriving DecidableEq, Repr

/-- State (sidekick.py): the LangGraph session state. -/
structure State where
  messages : List Message
  success_criteria : String
  feedback_on_work : Option String
  success_criteria_met : Bool
  user_input_needed : Bool
deriving DecidableEq, Repr

/-- A partial state update returned by a node.  A `none` scalar field
means the node did not put that key into its returned dict; the
`add_messages` channel always appends `messages`. -/
structure NodeUpdate where
  messages : List Message := []
  feedback_on_work : Option (Option String) := none
  success_criteria_met : Option Bool := none
  user_input_needed : Option Bool := none
deriving DecidableEq, Repr

/-- Python truthiness of an optional string (None and the empty string
are falsy). -/
def truthyOptStr : Option String → Bool
  | none => false
  | some s => !(s == "")

/-- Opening of the worker system prompt, up to (and excluding) the
success criteria, parameterised by the rendered current datetime. -/
def workerSysHead (now : String) : String :=
  "You are a helpful assistant that can use tools to complete tasks.\n" ++
  "    You keep working on a task until either you have a question or clarification for the user, or the success criteria is met.\n" ++
  "    You have many tools to help you, including tools to browse the internet, navigating and retrieving web pages.\n" ++
  "    You have a tool to run python code, but note that you would need to include a print() statement if you wanted to receive output.\n" ++
  "    The current date and time is " ++ now ++ "\n\n" ++
  "    This is the success criteria:\n    "

/-- Remainder of the worker system prompt after the success criteria,
including the rejection-feedback section appended when
`state.get(\"feedback_on_work\")` is truthy. -/
def workerSysTail (feedback_on_work : Option String) : String :=
  "\n    You should reply either with a question for the user about this assignment, or with your final response.\n" ++
  "    If you have a question for the user, you need to reply by clearly stating your question. An example might be:\n\n" ++
  "    Question: please clarify whether you want a summary or a detailed answer\n\n" ++
  "    If you have finished, reply with the final answer, and do not ask a question; simply reply with the answer.\n    " ++
  (match feedback_on_work with
   | some fb =>
     if fb == "" then ""
     else
       "\n    Previously you thought you completed the assignment, but your reply was rejected because the success criteria was not met.\n" ++
       "    Here is the feedback on why this was rejected:\n    " ++ fb ++
       "\n    With this feedback, please continue the assignment, ensuring that you meet the success criteria or have a question for the user."
   | none => "")

/-- The full system instruction built by Sidekick.worker. -/
def worker_system_message (now success_criteria : String)
    (feedback_on_work : Option String) : String :=
  workerSysHead now ++ success_criteria ++ workerSysTail feedback_on_work

/-- The system-message insertion step of Sidekick.worker.  The first
component is the state message list after the in-place content rewrite
performed by the `for message in messages` loop (every system message
gets the new content); the second component is the message list passed
to the LLM, which gains a prepended system message exactly when the
state list contains none (the prepended message is only local to the
invocation). -/
def workerPrepare (sys : String) (msgs : List Message) : List Message × List Message :=
  let mutated := msgs.map (fun m => if m.isSystem then { m with content := sys } else m)
  if msgs.any Message.isSystem then (mutated, mutated)
  else (msgs, { role := Role.system, content := sys } :: msgs)

/-- The substitute message the worker emits instead of propagating an
LLMInvocationError: a HumanMessage describing the failure. -/
def workerErrorMessage (e : LLMInvocationError) : Message :=
  { role := Role.user
    content :=
      "I encountered an error while processing your request: " ++
      e.originalErrorName ++
      ". Please try again or rephrase your request. Details: " ++
      e.originalErrorText }

/-- The Sidekick orchestrator.  The two LLM fields give the behaviour
of the bound models: input messages and the attempt number map to the
call outcome.  `browser` and `playwright` hold, when the resource is
set, the outcome of its release call (`browser.close()` /
`playwright.stop()`); `now` is the rendered `datetime.now()`. -/
structure Sidekick where
  worker_llm_with_tools : List Message → Nat → Except PyError Message
  evaluator_llm_with_output : List Message → Nat → Except PyError EvaluatorOutput
  tools : List SimpleTool
  browser : Option (Except PyError Unit)
  playwright : Option (Except PyError Unit)
  now : String

/-- The message lists produced by the worker preparation step for a
given state: state list after mutation, and the LLM input. -/
def Sidekick.workerPrepared (sk : Sidekick) (st : State) : List Message × List Message :=
  workerPrepare (worker_system_message sk.now st.success_criteria st.feedback_on_work)
    st.messages

/-- Sidekick.worker: returns the state message list after the in-place
system-message rewrite together with the partial update.  A terminal
LLMInvocationError is caught and replaced by a single explanatory
message; no scalar flag is ever set.  The fellThrough branch is dead
code: with max_retries = 3 the retry loop always returns or raises. -/
def Sidekick.worker (sk : Sidekick) (st : State) : List Message × NodeUpdate :=
  ((sk.workerPrepared st).1,
    match (invoke_with_retry_sync (sk.worker_llm_with_tools (sk.workerPrepared st).2) 3
        "Worker LLM invocation").outcome with
    | RetryOutcome.ok response => { messages := [response] }
    | RetryOutcome.raised e => { messages := [workerErrorMessage e] }
    | RetryOutcome.fellThrough => { messages := [] })

/-- Sidekick.worker_router: to the tools node when the last message
carries tool calls, otherwise to the evaluator. -/
def Sidekick.worker_router (st : State) : String :=
  match st.messages.getLast? with
  | some last => if last.tool_calls = [] then "evaluator" else "tools"
  | none => "evaluator"

/-- Loop body of Sidekick.format_conversation. -/
def conversationLines : List Message → String
  | [] => ""
  | m :: rest =>
    (match m.role with
     | Role.user => "User: " ++ m.content ++ "\n"
     | Role.assistant =>
       "Assistant: " ++ (if m.content == "" then "[Tools use]" else m.content) ++ "\n"
     | _ => "") ++ conversationLines rest

/-- Sidekick.format_conversation. -/
def Sidekick.format_conversation (messages : List Message) : String :=
  "Conversation history:\n\n" ++ conversationLines messages

/-- The evaluator system prompt. -/
def evaluatorSystemMessage : String :=
  "You are an evaluator that determines if a task has been completed successfully by an Assistant.\n" ++
  "    Assess the last response of the Assistant based on the given criteria. Respond with your feedback, and with your decision on whether the success criteria has been met,\n" ++
  "    and whether more input is needed from the user."

/-- The evaluator user prompt built from the conversation, the success
criteria and the last response, with the prior-feedback section added
when `state[\"feedback_on_work\"]` is truthy. -/
def evaluatorUserMessage (st : State) (last_response : String) : String :=
  "You are evaluating a conversation between the User and Assistant. You decide what action to take based on the last response from the Assistant.\n\n" ++
  "    The entire conversation with the assistant, with the original request of the user and all replies, is:\n    " ++
  Sidekick.format_conversation st.messages ++
  "\n\n    The success criteria for this assignment is:\n    " ++
  st.success_criteria ++
  "\n\n    And the final response from the Assistant that you are evaluating is:\n    " ++
  last_response ++
  "\n\n    Respond with your feedback, and decide if the success criteria is met by this response.\n" ++
  "    Also, decide if more user input is required, either because the assistant has a question, needs clarification, or seems to be stuck and unable to answer without help.\n\n" ++
  "    The Assistant has access to a tool to write files. If the Assistant says they have written a file, then you can assume they have done so.\n" ++
  "    Overall you should give the Assistant the benefit of the doubt if they say they have done something. But you should reject if you feel that more work should go into this.\n\n    " ++
  (match st.feedback_on_work with
   | some fb =>
     if fb == "" then ""
     else
       "Also, note that in a prior attempt from the Assistant, you provided this feedback: " ++ fb ++ "\n" ++
       "If you are seeing the Assistant repeating the same mistakes, then consider responding that user input is required."
   | none => "")

/-- The message list passed to the evaluator LLM. -/
def evaluatorMessages (st : State) (last_response : String) : List Message :=
  [{ role := Role.system, content := evaluatorSystemMessage },
   { role := Role.user, content := evaluatorUserMessage st last_response }]

/-- Default used to embed the partial `messages[-1]` / `messages[-2]`
indexing (the source would raise IndexError on a too-short list;
termination proofs show the defaults are never consulted). -/
def defaultMessage : Message :=
  { role := Role.assistant, content := "" }

/-- `state[\"messages\"][-1].content`, the response the evaluator
judges. -/
def lastResponseOf (st : State) : String :=
  (st.messages.getD (st.messages.length - 1) defaultMessage).content

/-- Sidekick.evaluator: asks the judge LLM for a structured verdict; a
terminal LLMInvocationError is converted into the fail-safe update
(criteria not met, user input needed, one assistant message describing
the failure).  The state is indexed with `messages[-1]`, so the graph
only ever calls this with a nonempty message list; the default covers
the empty case the source would crash on.  The fellThrough branch is
dead code for max_retries = 3. -/
def Sidekick.evaluator (sk : Sidekick) (st : State) : NodeUpdate :=
  match (invoke_with_retry_sync
      (sk.evaluator_llm_with_output (evaluatorMessages st (lastResponseOf st))) 3
      "Evaluator LLM invocation").outcome with
  | RetryOutcome.ok eval_result =>
    { messages :=
        [{ role := Role.assistant
           content := "Evaluator Feedback on this answer: " ++ eval_result.feedback }]
      feedback_on_work := some (some eval_result.feedback)
      success_criteria_met := some eval_result.success_criteria_met
      user_input_needed := some eval_result.user_input_needed }
  | RetryOutcome.raised e =>
    { messages :=
        [{ role := Role.assistant
           content := "Evaluator encountered an error: " ++ e.originalErrorName ++
             ". Requesting user input to proceed." }]
      feedback_on_work :=
        some (some ("Evaluation failed: " ++ e.originalErrorName ++ ". Please try again."))
      success_criteria_met := some false
      user_input_needed := some true }
  | RetryOutcome.fellThrough => { messages := [] }

/-- Sidekick.route_based_on_evaluation. -/
def Sidekick.route_based_on_evaluation (st : State) : String :=
  if st.success_criteria_met || st.user_input_needed then "END" else "worker"

/-- Merge of a node result into the state: `messages` is an
add_messages channel (append), the scalar fields replace the old value
when the update carries them.  `base` is the state message list as the
node left it (the worker mutates system messages in place). -/
def applyUpdate (base : List Message) (s : State) (u : NodeUpdate) : State :=
  { messages := base ++ u.messages
    success_criteria := s.success_criteria
    feedback_on_work := u.feedback_on_work.getD s.feedback_on_work
    success_criteria_met := u.success_criteria_met.getD s.success_criteria_met
    user_input_needed := u.user_input_needed.getD s.user_input_needed }

/-- State after executing the worker node. -/
def Sidekick.workerStep (sk : Sidekick) (s : State) : State :=
  let pr := sk.worker s
  applyUpdate pr.1 s pr.2

/-- State after executing the tools node. -/
def Sidekick.toolsStep (sk : Sidekick) (s : State) : State :=
  applyUpdate s.messages s
    { messages := ErrorHandlingToolNode.call ⟨sk.tools⟩ s.messages }

/-- State after executing the evaluator node. -/
def Sidekick.evalStep (sk : Sidekick) (s : State) : State :=
  applyUpdate s.messages s (sk.evaluator s)

/-- The graph nodes of Sidekick.build_graph. -/
inductive GNode
  | worker
  | tools
  | evaluator
deriving DecidableEq, Repr

/-- Execution of the compiled graph: START goes to the worker; after
the worker, worker_router picks tools or evaluator; tools always goes
back to the worker; after the evaluator, route_based_on_evaluation
picks END or the worker.  `fuel` bounds the number of node executions
(the graph run of the source is bounded only by the LangGraph
recursion limit; a run that does not finish within `fuel` is `none`). -/
def Sidekick.runGraph (sk : Sidekick) : Nat → GNode → State → Option State
  | 0, _, _ => none
  | Nat.succ fuel, GNode.worker, s =>
    let s1 := sk.workerStep s
    if Sidekick.worker_router s1 = "tools" then sk.runGraph fuel GNode.tools s1
    else sk.runGraph fuel GNode.evaluator s1
  | Nat.succ fuel, GNode.tools, s => sk.runGraph fuel GNode.worker (sk.toolsStep s)
  | Nat.succ fuel, GNode.evaluator, s =>
    let s1 := sk.evalStep s
    if Sidekick.route_based_on_evaluation s1 = "END" then some s1
    else sk.runGraph fuel GNode.worker s1

/-- A role/content entry of the gradio-facing history list. -/
structure ChatEntry where
  role : String
  content : String
deriving DecidableEq, Repr

/-- The state run_superstep seeds the graph with: the user message,
the resolved success criteria (`success_criteria or \"The answer
should be clear and accurate\"`, so None and the empty string resolve
to the default), cleared feedback and both flags false. -/
def initialTurnState (message : String) (success_criteria : Option String) : State :=
  { messages := [{ role := Role.user, content := message }]
    success_criteria :=
      match success_criteria with
      | none => "The answer should be clear and accurate"
      | some s => if s == "" then "The answer should be clear and accurate" else s
    feedback_on_work := none
    success_criteria_met := false
    user_input_needed := false }

/-- Sidekick.run_superstep: seeds the state, drives the graph from the
worker node, and appends the user message plus the contents of the
last two state messages (`messages[-2]`, `messages[-1]`) as assistant
entries to the history. -/
def Sidekick.run_superstep (sk : Sidekick) (fuel : Nat) (message : String)
    (success_criteria : Option String) (history : List ChatEntry) :
    Option (List ChatEntry) :=
  match sk.runGraph fuel GNode.worker (initialTurnState message success_criteria) with
  | none => none
  | some result =>
    some (history ++
      [{ role := "user", content := message },
       { role := "assistant"
         content := (result.messages.getD (result.messages.length - 2) defaultMessage).content },
       { role := "assistant"
         content := (result.messages.getD (result.messages.length - 1) defaultMessage).content }])

/-- Which release calls a cleanup run attempted. -/
structure CleanupTrace where
  browser_close_called : Bool
  playwright_stop_called : Bool
deriving DecidableEq, Repr

/-- A `try: await call() except Exception as e: logger.error(...)`
block: the exception of the awaited call is logged and swallowed. -/
def catchAndLog : Except PyError Unit → Except PyError Unit
  | Except.ok _ => Except.ok ()
  | Except.error _ => Except.ok ()

/-- Sidekick.cleanup: early return when no browser is set; otherwise
close the browser inside a try/except, then, when playwright is set,
stop it inside its own try/except.  The outer Except is Python
exception propagation out of cleanup; the fields of the Sidekick are
never reassigned, so the returned instance is unchanged. -/
def Sidekick.cleanup (sk : Sidekick) : Except PyError (Sidekick × CleanupTrace) :=
  match sk.browser with
  | none => Except.ok (sk, ⟨false, false⟩)
  | some closeOutcome =>
    (catchAndLog closeOutcome).bind (fun _ =>
      match sk.playwright with
      | none => Except.ok (sk, ⟨true, false⟩)
      | some stopOutcome =>
        (catchAndLog stopOutcome).bind (fun _ => Except.ok (sk, ⟨true, true⟩)))

/-- Two cleanup calls in a row on the same instance. -/
def cleanupTwice (sk : Sidekick) : Except PyError (Sidekick × CleanupTrace) :=
  match sk.cleanup with
  | Except.ok (sk2, _) => sk2.cleanup
  | Except.error e => Except.error e

/-- Stub operation that raises a retryable RateLimitError on every
attempt. -/
def retryAlwaysRateLimited : Nat → Except PyError String :=
  fun _ => Except.error (PyError.rateLimitError "rate limited")

/-- Stub operation whose first call raises a fatal
AuthenticationError. -/
def retryFatalFirst : Nat → Except PyError String :=
  fun _ => Except.error (PyError.authenticationError "Invalid API key")

/-- A Sidekick whose stubbed LLMs always succeed: the worker answers
with plain text and the evaluator accepts. -/
def stubSidekickOk : Sidekick :=
  { worker_llm_with_tools := fun _ _ =>
      Except.ok { role := Role.assistant, content := "Hello there!" }
    evaluator_llm_with_output := fun _ _ =>
      Except.ok ⟨"contains hello", true, false⟩
    tools := []
    browser := none
    playwright := none
    now := "2026-02-03 04:05:06" }

/-- A Sidekick whose worker LLM raises a fatal error on every call. -/
def stubSidekickWorkerFail : Sidekick :=
  { stubSidekickOk with
    worker_llm_with_tools := fun _ _ =>
      Except.error (PyError.authenticationError "Invalid API key") }

/-- A Sidekick whose evaluator LLM raises a fatal error on every
call. -/
def stubSidekickEvalFail : Sidekick :=
  { stubSidekickOk with
    evaluator_llm_with_output := fun _ _ =>
      Except.error (PyError.authenticationError "Invalid API key") }

/-- A Sidekick whose browser release always raises while a playwright
handle is attached. -/
def stubSidekickBadBrowser : Sidekick :=
  { stubSidekickOk with
    browser := some (Except.error (PyError.otherError "TargetClosedError" "browser already closed"))
    playwright := some (Except.ok ()) }

/-- A Sidekick with a playwright handle but no browser. -/
def stubSidekickPlaywrightOnly : Sidekick :=
  { stubSidekickOk with playwright := some (Except.ok ()) }

/-- The terminal error the retry invoker raises for a worker stub that
always fails with an AuthenticationError. -/
def workerFatalLLMError : LLMInvocationError :=
  { message := "Worker LLM invocation failed with fatal error"
    original_error := some (PyError.authenticationError "Invalid API key")
    attempt := 1
    max_attempts := 3 }

/-- The terminal error the retry invoker raises for an evaluator stub
that always fails with an AuthenticationError. -/
def evaluatorFatalLLMError : LLMInvocationError :=
  { message := "Evaluator LLM invocation failed with fatal error"
    original_error := some (PyError.authenticationError "Invalid API key")
    attempt := 1
    max_attempts := 3 }

/-- A one-user-message state used to exercise the node functions. -/
def demoState : State :=
  { messages := [{ role := Role.user, content := "Say hello" }]
    success_criteria := "Response must contain the word hello"
    feedback_on_work := none
    success_criteria_met := false
    user_input_needed := false }

/-- demoState with a single system message already present. -/
def demoStateWithSystem : State :=
  { demoState with
    messages :=
      [{ role := Role.system, content := "old" },
       { role := Role.user, content := "Say hello" }] }

/-! ### Theorems -/

/-- The async retry loop and the synchronous retry loop are the same
function of the call outcomes: the two copies in the source differ
only in how they sleep. -/
theorem retryLoopAsync_eq_sync {α : Type} (f : Nat → Except PyError α)
    (max_retries : Nat) (op : String) :
    ∀ (remaining attempt : Nat),
      retryLoopAsync f max_retries op attempt remaining =
        retryLoopSync f max_retries op attempt remaining := by
  intro remaining
  induction remaining with
  | zero => intro attempt; rfl
  | succ r ih =>
    intro attempt
    simp only [retryLoopAsync, retryLoopSync]
    cases hf : f attempt with
    | ok a => rfl
    | error e => simp only [ih]

/-- invoke_with_retry and invoke_with_retry_sync agree on every
operation. -/
theorem invoke_with_retry_eq_sync {α : Type} (f : Nat → Except PyError α)
    (max_retries : Nat) (op : String) :
    invoke_with_retry f max_retries op = invoke_with_retry_sync f max_retries op :=
  retryLoopAsync_eq_sync f max_retries op max_retries 1

/-- One-step unfolding of the retry loop body. -/
theorem retryLoopSync_succ {α : Type} (f : Nat → Except PyError α)
    (max_retries : Nat) (op : String) (attempt r : Nat) :
    retryLoopSync f max_retries op attempt (r + 1) =
      match f attempt with
      | Except.ok a => ⟨RetryOutcome.ok a, 1⟩
      | Except.error e =>
        if is_fatal_error e then
          ⟨RetryOutcome.raised
            ⟨op ++ " failed with fatal error", some e, attempt, max_retries⟩, 1⟩
        else if is_retryable_error e = false then
          ⟨RetryOutcome.raised
            ⟨op ++ " failed with non-retryable error", some e, attempt, max_retries⟩, 1⟩
        else if max_retries ≤ attempt then
          ⟨RetryOutcome.raised
            ⟨op ++ " failed after " ++ toString max_retries ++ " attempts",
              some e, attempt, max_retries⟩, 1⟩
        else
          let t := retryLoopSync f max_retries op (attempt + 1) r
          ⟨t.outcome, t.calls + 1⟩ := rfl

/-- When every attempt raises a retryable, non-fatal error, the loop
performs one call per remaining iteration and ends by raising. -/
theorem retryLoopSync_all_retryable {α : Type} (f : Nat → Except PyError α)
    (max_retries : Nat) (op : String)
    (hf : ∀ n, ∃ e, f n = Except.error e ∧
      is_fatal_error e = false ∧ is_retryable_error e = true) :
    ∀ (remaining attempt : Nat), 1 ≤ remaining →
      attempt + remaining = max_retries + 1 →
      (retryLoopSync f max_retries op attempt remaining).calls = remaining ∧
      ∃ err, (retryLoopSync f max_retries op attempt remaining).outcome =
        RetryOutcome.raised err := by
  intro remaining
  induction remaining with
  | zero => intro attempt h1 _; exact absurd h1 (by omega)
  | succ r ih =>
    intro attempt _ hsum
    obtain ⟨e, hfe, hfat, hret⟩ := hf attempt
    cases r with
    | zero =>
      have ha : max_retries ≤ attempt := by omega
      rw [retryLoopSync_succ, hfe]
      simp [hfat, hret, ha]
    | succ r2 =>
      have ha : ¬ max_retries ≤ attempt := by omega
      have hrec := ih (attempt + 1) (by omega) (by omega)
      have hstep : retryLoopSync f max_retries op attempt (r2 + 1 + 1) =
          ⟨(retryLoopSync f max_retries op (attempt + 1) (r2 + 1)).outcome,
            (retryLoopSync f max_retries op (attempt + 1) (r2 + 1)).calls + 1⟩ := by
        rw [retryLoopSync_succ, hfe]
        simp [hfat, hret, ha]
      rw [hstep]
      refine ⟨by simp [hrec.1], ?_⟩
      obtain ⟨err, herr⟩ := hrec.2
      exact ⟨err, by simp [herr]⟩

/-- The retry loop never falls off the end of the `for` loop when it
starts with at least one remaining iteration and the loop-counter
invariant holds. -/
theorem retryLoopSync_no_fall {α : Type} (f : Nat → Except PyError α)
    (max_retries : Nat) (op : String) :
    ∀ (remaining attempt : Nat), 1 ≤ remaining →
      attempt + remaining = max_retries + 1 →
      (retryLoopSync f max_retries op attempt remaining).outcome ≠
        RetryOutcome.fellThrough := by
  intro remaining
  induction remaining with
  | zero => intro attempt h1 _; exact absurd h1 (by omega)
  | succ r ih =>
    intro attempt _ hsum
    cases hf : f attempt with
    | ok a => rw [retryLoopSync_succ, hf]; simp
    | error e =>
      by_cases hfat : is_fatal_error e = true
      · rw [retryLoopSync_succ, hf]; simp [hfat]
      · by_cases hret : is_retryable_error e = true
        · cases r with
          | zero =>
            have ha : max_retries ≤ attempt := by omega
            rw [retryLoopSync_succ, hf]
            simp [hfat, hret, ha]
          | succ r2 =>
            have ha : ¬ max_retries ≤ attempt := by omega
            have hrec := ih (attempt + 1) (by omega) (by omega)
            have hstep : retryLoopSync f max_retries op attempt (r2 + 1 + 1) =
                ⟨(retryLoopSync f max_retries op (attempt + 1) (r2 + 1)).outcome,
                  (retryLoopSync f max_retries op (attempt + 1) (r2 + 1)).calls + 1⟩ := by
              rw [retryLoopSync_succ, hf]
              simp [hfat, hret, ha]
            rw [hstep]
            simpa using hrec
        · rw [retryLoopSync_succ, hf]; simp [hfat, hret]

/-- With a positive max_retries the invoker always returns a value or
raises; the implicit-None path is unreachable. -/
theorem invoke_with_retry_sync_no_fall {α : Type} (f : Nat → Except PyError α)
    (max_retries : Nat) (op : String) (h : 1 ≤ max_retries) :
    (invoke_with_retry_sync f max_retries op).outcome ≠ RetryOutcome.fellThrough :=
  retryLoopSync_no_fall f max_retries op max_retries 1 h (by omega)

/-- A first-call fatal error makes the sync invoker raise at once. -/
theorem invoke_with_retry_sync_fatal_first {α : Type} (f : Nat → Except PyError α)
    (max_retries : Nat) (op : String) (h : 1 ≤ max_retries)
    (e : PyError) (hfe : f 1 = Except.error e) (hfat : is_fatal_error e = true) :
    invoke_with_retry_sync f max_retries op =
      ⟨RetryOutcome.raised ⟨op ++ " failed with fatal error", some e, 1, max_retries⟩, 1⟩ := by
  unfold invoke_with_retry_sync
  cases max_retries with
  | zero => exact absurd h (by omega)
  | succ m => simp [retryLoopSync, hfe, hfat]

/-- Claim C1: for any positive max_retries, an operation that raises a
retryable error on every call is invoked exactly max_retries times by
invoke_with_retry_sync before an LLMInvocationError is raised, and an
operation whose first call raises a fatal error is invoked exactly
once before an LLMInvocationError is raised; invoke_with_retry behaves
identically. -/
theorem invoke_with_retry_attempt_counts {α : Type} (f : Nat → Except PyError α)
    (max_retries : Nat) (op : String) (hpos : 1 ≤ max_retries) :
    ((∀ n, ∃ e, f n = Except.error e ∧
        is_fatal_error e = false ∧ is_retryable_error e = true) →
      (invoke_with_retry_sync f max_retries op).calls = max_retries ∧
      (∃ err, (invoke_with_retry_sync f max_retries op).outcome = RetryOutcome.raised err) ∧
      invoke_with_retry f max_retries op = invoke_with_retry_sync f max_retries op)
    ∧ (∀ e, f 1 = Except.error e → is_fatal_error e = true →
      (invoke_with_retry_sync f max_retries op).calls = 1 ∧
      (∃ err, (invoke_with_retry_sync f max_retries op).outcome = RetryOutcome.raised err) ∧
      invoke_with_retry f max_retries op = invoke_with_retry_sync f max_retries op) := by
  constructor
  · intro hf
    have := retryLoopSync_all_retryable f max_retries op hf max_retries 1 hpos (by omega)
    exact ⟨this.1, this.2, invoke_with_retry_eq_sync f max_retries op⟩
  · intro e hfe hfat
    have hfd := invoke_with_retry_sync_fatal_first f max_retries op hpos e hfe hfat
    exact ⟨by rw [hfd],
      ⟨⟨op ++ " failed with fatal error", some e, 1, max_retries⟩, by rw [hfd]⟩,
      invoke_with_retry_eq_sync f max_retries op⟩

/-- Witness for C1: a persistent RateLimitError is attempted 3 times
and raises; a first-call AuthenticationError is attempted once and
raises. -/
theorem invoke_with_retry_attempt_counts_witness :
    ((invoke_with_retry_sync retryAlwaysRateLimited 3 "LLM invocation").calls = 3 ∧
      (∃ err, (invoke_with_retry_sync retryAlwaysRateLimited 3 "LLM invocation").outcome =
        RetryOutcome.raised err) ∧
      invoke_with_retry retryAlwaysRateLimited 3 "LLM invocation" =
        invoke_with_retry_sync retryAlwaysRateLimited 3 "LLM invocation")
    ∧ ((invoke_with_retry_sync retryFatalFirst 3 "LLM invocation").calls = 1 ∧
      (∃ err, (invoke_with_retry_sync retryFatalFirst 3 "LLM invocation").outcome =
        RetryOutcome.raised err) ∧
      invoke_with_retry retryFatalFirst 3 "LLM invocation" =
        invoke_with_retry_sync retryFatalFirst 3 "LLM invocation") :=
  ⟨(invoke_with_retry_attempt_counts retryAlwaysRateLimited 3 "LLM invocation"
      (by omega)).1
      (fun _ => ⟨PyError.rateLimitError "rate limited", rfl, rfl, rfl⟩),
   (invoke_with_retry_attempt_counts retryFatalFirst 3 "LLM invocation"
      (by omega)).2
      (PyError.authenticationError "Invalid API key") rfl rfl⟩

/-- Each processed tool call yields a result carrying its request
id, whatever the lookup and execution outcome. -/
theorem runOne_tool_call_id (node : ErrorHandlingToolNode) (tc : ToolCall) :
    (node.runOne tc).tool_call_id = some tc.id := by
  unfold ErrorHandlingToolNode.runOne
  cases lookupTool node.tools tc.name with
  | none => rfl
  | some tool => cases h : tool.run tc.args <;> simp [h]

/-- Mapping the per-call processor over a batch reproduces the request
ids positionally. -/
theorem map_runOne_ids (node : ErrorHandlingToolNode) :
    ∀ (tcs : List ToolCall),
      (tcs.map node.runOne).map Message.tool_call_id =
        tcs.map (fun tc => some tc.id) := by
  intro tcs
  induction tcs with
  | nil => rfl
  | cons a l ih => simp [ih, runOne_tool_call_id]

/-- Claim C2: the tool node returns exactly one result per tool-call
request on the last message, each carrying its request id in order
(so with distinct request ids each id appears exactly once), never
raising; with no requests the batch is empty.  The node is a total
function of the input, so no exception escapes it. -/
theorem tool_node_batch_completeness (node : ErrorHandlingToolNode)
    (messages : List Message) :
    ((node.call messages).map Message.tool_call_id =
      (lastToolCalls messages).map (fun tc => some tc.id))
    ∧ (node.call messages).length = (lastToolCalls messages).length
    ∧ (((lastToolCalls messages).map ToolCall.id).Nodup →
        ((node.call messages).map Message.tool_call_id).Nodup) := by
  have hmap : (node.call messages).map Message.tool_call_id =
      (lastToolCalls messages).map (fun tc => some tc.id) := by
    unfold ErrorHandlingToolNode.call lastToolCalls
    cases messages.getLast? with
    | none => rfl
    | some last =>
      by_cases h : last.tool_calls = []
      · simp [h]
      · simp only [h, if_neg (by simpa using h)]
        exact map_runOne_ids node last.tool_calls
  refine ⟨hmap, ?_, ?_⟩
  · have := congrArg List.length hmap
    simpa using this
  · intro hnd
    rw [hmap]
    have : (lastToolCalls messages).map (fun tc => some tc.id) =
        ((lastToolCalls messages).map ToolCall.id).map some := by
      simp [List.map_map]
    rw [this]
    exact hnd.map (Option.some_injective _)

/-- Witness for C2 on a four-request batch mixing a succeeding tool, a
raising tool, an unknown tool and a duplicate of the succeeding
tool. -/
theorem tool_node_batch_completeness_witness :
    ((ErrorHandlingToolNode.call
        ⟨[⟨"echo", fun _ => Except.ok "echoed"⟩,
          ⟨"boom", fun _ => Except.error (PyError.valueError "bad input")⟩]⟩
        [{ role := Role.user, content := "hi" },
         { role := Role.assistant, content := ""
           tool_calls :=
            [⟨"echo", [], "call_1"⟩, ⟨"boom", [], "call_2"⟩,
             ⟨"missing", [], "call_3"⟩, ⟨"echo", [], "call_4"⟩] }]).map
      Message.tool_call_id =
      [some "call_1", some "call_2", some "call_3", some "call_4"])
    ∧ ((ErrorHandlingToolNode.call
        ⟨[⟨"echo", fun _ => Except.ok "echoed"⟩,
          ⟨"boom", fun _ => Except.error (PyError.valueError "bad input")⟩]⟩
        [{ role := Role.user, content := "hi" },
         { role := Role.assistant, content := ""
           tool_calls :=
            [⟨"echo", [], "call_1"⟩, ⟨"boom", [], "call_2"⟩,
             ⟨"missing", [], "call_3"⟩, ⟨"echo", [], "call_4"⟩] }]).map
      Message.tool_call_id).Nodup := by
  constructor
  · exact ((tool_node_batch_completeness _ _).1).trans (by rfl)
  · exact (tool_node_batch_completeness _ _).2.2 (by decide)

/-- Claim C3: the evaluator-exit router returns END exactly when the
criteria are met or user input is needed, and worker otherwise. -/
theorem route_based_on_evaluation_spec (st : State) :
    (Sidekick.route_based_on_evaluation st = "END" ↔
      (st.success_criteria_met || st.user_input_needed) = true)
    ∧ (Sidekick.route_based_on_evaluation st = "worker" ↔
      (st.success_criteria_met || st.user_input_needed) = false) := by
  cases h1 : st.success_criteria_met <;> cases h2 : st.user_input_needed <;>
    simp [Sidekick.route_based_on_evaluation, h1, h2]

/-- Claim C4 (counterexample): the worker system-message rewrite does
not target only the first system message.  On a state list holding two
system messages ("a" then "b"), the loop rewrites the second one as
well: its content after preparation is the new system instruction, not
"b". -/
theorem worker_targets_only_first_system_counterexample :
    ((workerPrepare (worker_system_message "2026-02-03 04:05:06" "X" none)
        [{ role := Role.system, content := "a" },
         { role := Role.system, content := "b" }]).1.getD 1 defaultMessage).content =
      worker_system_message "2026-02-03 04:05:06" "X" none
    ∧ ((workerPrepare (worker_system_message "2026-02-03 04:05:06" "X" none)
        [{ role := Role.system, content := "a" },
         { role := Role.system, content := "b" }]).1.getD 1 defaultMessage).content ≠
      "b" := by
  refine ⟨rfl, ?_⟩
  decide

/-- Claim C4 (amended): when the state already holds a system message,
the worker rewrites the content of every system message in place (the
prepared list keeps its length, every system entry now embeds the
success criterion, non-system entries are preserved, and the LLM input
is that same list); when the state holds no system message, a new
system message is prepended to the LLM input (length + 1) while the
state list is left as is. -/
theorem worker_system_message_policy (sk : Sidekick) (st : State) :
    (st.messages.any Message.isSystem = true →
      (sk.workerPrepared st).1.length = st.messages.length ∧
      (sk.workerPrepared st).2 = (sk.workerPrepared st).1 ∧
      (∀ m, m ∈ (sk.workerPrepared st).1 → m.isSystem = true →
        ∃ p q, m.content = p ++ st.success_criteria ++ q) ∧
      (∀ m, m ∈ st.messages → m.isSystem = false → m ∈ (sk.workerPrepared st).1))
    ∧ (st.messages.any Message.isSystem = false →
      (sk.workerPrepared st).1 = st.messages ∧
      (sk.workerPrepared st).2 =
        { role := Role.system
          content :=
            worker_system_message sk.now st.success_criteria st.feedback_on_work } ::
          st.messages ∧
      (sk.workerPrepared st).2.length = st.messages.length + 1) := by
  constructor
  · intro h
    have heq : sk.workerPrepared st =
        (st.messages.map (fun m =>
          if m.isSystem then
            { m with content :=
                worker_system_message sk.now st.success_criteria st.feedback_on_work }
          else m),
         st.messages.map (fun m =>
          if m.isSystem then
            { m with content :=
                worker_system_message sk.now st.success_criteria st.feedback_on_work }
          else m)) := by
      unfold Sidekick.workerPrepared workerPrepare
      simp [h]
    rw [heq]
    refine ⟨by simp, rfl, ?_, ?_⟩
    · intro m hm hsys
      rcases List.mem_map.mp hm with ⟨m0, hm0, hfm⟩
      by_cases h0 : m0.isSystem = true
      · rw [if_pos h0] at hfm
        refine ⟨workerSysHead sk.now, workerSysTail st.feedback_on_work, ?_⟩
        rw [← hfm]
        rfl
      · rw [if_neg h0] at hfm
        rw [← hfm] at hsys
        exact absurd hsys h0
    · intro m hm hns
      apply List.mem_map.mpr
      exact ⟨m, hm, by rw [if_neg (by simp [hns])]⟩
  · intro h
    have heq : sk.workerPrepared st =
        (st.messages,
         { role := Role.system
           content :=
             worker_system_message sk.now st.success_criteria st.feedback_on_work } ::
           st.messages) := by
      unfold Sidekick.workerPrepared workerPrepare
      simp [h]
    rw [heq]
    exact ⟨rfl, rfl, by simp⟩

/-- Witness for the amended C4: a state with one system message is
rewritten in place; a state without one gets a prepended system
message in the LLM input only. -/
theorem worker_system_message_policy_witness :
    ((stubSidekickOk.workerPrepared demoStateWithSystem).1.length =
        demoStateWithSystem.messages.length
      ∧ (stubSidekickOk.workerPrepared demoStateWithSystem).2 =
        (stubSidekickOk.workerPrepared demoStateWithSystem).1
      ∧ (∀ m, m ∈ (stubSidekickOk.workerPrepared demoStateWithSystem).1 →
          m.isSystem = true →
          ∃ p q, m.content = p ++ demoStateWithSystem.success_criteria ++ q)
      ∧ (∀ m, m ∈ demoStateWithSystem.messages → m.isSystem = false →
          m ∈ (stubSidekickOk.workerPrepared demoStateWithSystem).1))
    ∧ ((stubSidekickOk.workerPrepared demoState).1 = demoState.messages
      ∧ (stubSidekickOk.workerPrepared demoState).2 =
        { role := Role.system
          content := worker_system_message stubSidekickOk.now demoState.success_criteria
            demoState.feedback_on_work } :: demoState.messages
      ∧ (stubSidekickOk.workerPrepared demoState).2.length =
          demoState.messages.length + 1) :=
  ⟨(worker_system_message_policy stubSidekickOk demoStateWithSystem).1 rfl,
   (worker_system_message_policy stubSidekickOk demoState).2 rfl⟩

/-- Claim C5: when the worker LLM invocation terminally fails, the
worker node returns exactly one substitute message naming the error
type and detail, and sets none of the scalar flags. -/
theorem worker_error_containment (sk : Sidekick) (st : State) (e : LLMInvocationError)
    (h : ∀ msgs, (invoke_with_retry_sync (sk.worker_llm_with_tools msgs) 3
      "Worker LLM invocation").outcome = RetryOutcome.raised e) :
    (sk.worker st).2 = { messages := [workerErrorMessage e] }
    ∧ (sk.worker st).2.messages.length = 1
    ∧ (sk.worker st).2.success_criteria_met = none
    ∧ (sk.worker st).2.user_input_needed = none
    ∧ (sk.worker st).2.feedback_on_work = none
    ∧ (workerErrorMessage e).content =
        "I encountered an error while processing your request: " ++
        e.originalErrorName ++
        ". Please try again or rephrase your request. Details: " ++
        e.originalErrorText := by
  have h2 := h (sk.workerPrepared st).2
  have hupd : (sk.worker st).2 = { messages := [workerErrorMessage e] } := by
    simp [Sidekick.worker, h2]
  exact ⟨hupd, by simp [hupd], by rw [hupd], by rw [hupd], by rw [hupd], rfl⟩

/-- Witness for C5: a worker whose LLM always raises a fatal
AuthenticationError. -/
theorem worker_error_containment_witness :
    (stubSidekickWorkerFail.worker demoState).2 =
      { messages := [workerErrorMessage workerFatalLLMError] }
    ∧ (stubSidekickWorkerFail.worker demoState).2.messages.length = 1
    ∧ (stubSidekickWorkerFail.worker demoState).2.success_criteria_met = none
    ∧ (stubSidekickWorkerFail.worker demoState).2.user_input_needed = none
    ∧ (stubSidekickWorkerFail.worker demoState).2.feedback_on_work = none
    ∧ (workerErrorMessage workerFatalLLMError).content =
        "I encountered an error while processing your request: " ++
        workerFatalLLMError.originalErrorName ++
        ". Please try again or rephrase your request. Details: " ++
        workerFatalLLMError.originalErrorText :=
  worker_error_containment stubSidekickWorkerFail demoState workerFatalLLMError
    (fun _ => rfl)

/-- Claim C9: the substitute message the worker emits on terminal LLM
failure carries the user role (it is a HumanMessage). -/
theorem worker_error_message_role_user (sk : Sidekick) (st : State)
    (e : LLMInvocationError)
    (h : ∀ msgs, (invoke_with_retry_sync (sk.worker_llm_with_tools msgs) 3
      "Worker LLM invocation").outcome = RetryOutcome.raised e) :
    (sk.worker st).2.messages.map Message.role = [Role.user] := by
  have h2 := h (sk.workerPrepared st).2
  simp [Sidekick.worker, h2, workerErrorMessage]

/-- Witness for C9. -/
theorem worker_error_message_role_user_witness :
    (stubSidekickWorkerFail.worker demoState).2.messages.map Message.role =
      [Role.user] :=
  worker_error_message_role_user stubSidekickWorkerFail demoState workerFatalLLMError
    (fun _ => rfl)

/-- Claim C6: when the evaluator LLM invocation terminally fails, the
evaluator node fails safe: criteria not met, user input needed, and a
single assistant message describing the evaluator failure. -/
theorem evaluator_failsafe (sk : Sidekick) (st : State) (e : LLMInvocationError)
    (h : ∀ msgs, (invoke_with_retry_sync (sk.evaluator_llm_with_output msgs) 3
      "Evaluator LLM invocation").outcome = RetryOutcome.raised e) :
    sk.evaluator st =
      { messages :=
          [{ role := Role.assistant
             content := "Evaluator encountered an error: " ++ e.originalErrorName ++
               ". Requesting user input to proceed." }]
        feedback_on_work :=
          some (some ("Evaluation failed: " ++ e.originalErrorName ++ ". Please try again."))
        success_criteria_met := some false
        user_input_needed := some true }
    ∧ (sk.evaluator st).success_criteria_met = some false
    ∧ (sk.evaluator st).user_input_needed = some true
    ∧ (sk.evaluator st).messages.length = 1
    ∧ (sk.evaluator st).messages.map Message.role = [Role.assistant] := by
  have h2 := h (evaluatorMessages st (lastResponseOf st))
  have hupd : sk.evaluator st =
      { messages :=
          [{ role := Role.assistant
             content := "Evaluator encountered an error: " ++ e.originalErrorName ++
               ". Requesting user input to proceed." }]
        feedback_on_work :=
          some (some ("Evaluation failed: " ++ e.originalErrorName ++ ". Please try again."))
        success_criteria_met := some false
        user_input_needed := some true } := by
    simp [Sidekick.evaluator, h2]
  exact ⟨hupd, by rw [hupd], by rw [hupd], by simp [hupd], by simp [hupd]⟩

/-- Witness for C6: an evaluator whose LLM always raises a fatal
AuthenticationError. -/
theorem evaluator_failsafe_witness :
    (stubSidekickEvalFail.evaluator demoState).success_criteria_met = some false
    ∧ (stubSidekickEvalFail.evaluator demoState).user_input_needed = some true
    ∧ (stubSidekickEvalFail.evaluator demoState).messages.length = 1
    ∧ (stubSidekickEvalFail.evaluator demoState).messages.map Message.role =
        [Role.assistant] :=
  (evaluator_failsafe stubSidekickEvalFail demoState evaluatorFatalLLMError
    (fun _ => rfl)).2

/-- The worker node always contributes exactly one message to the
state (the LLM response, or the substitute error message). -/
theorem worker_update_shape (sk : Sidekick) (st : State) :
    ∃ wm, (sk.worker st).2 = { messages := [wm] } := by
  cases ho : (invoke_with_retry_sync (sk.worker_llm_with_tools (sk.workerPrepared st).2) 3
      "Worker LLM invocation").outcome with
  | ok r => exact ⟨r, by simp [Sidekick.worker, ho]⟩
  | raised e => exact ⟨workerErrorMessage e, by simp [Sidekick.worker, ho]⟩
  | fellThrough => exact absurd ho (invoke_with_retry_sync_no_fall _ 3 _ (by omega))

/-- The evaluator node always contributes exactly one assistant
message (the feedback message, or the failure message). -/
theorem evaluator_update_shape (sk : Sidekick) (st : State) :
    ∃ em, (sk.evaluator st).messages = [em] ∧ em.role = Role.assistant := by
  cases ho : (invoke_with_retry_sync
      (sk.evaluator_llm_with_output (evaluatorMessages st (lastResponseOf st))) 3
      "Evaluator LLM invocation").outcome with
  | ok v =>
    refine ⟨⟨Role.assistant,
      "Evaluator Feedback on this answer: " ++ v.feedback, [], none, none⟩, ?_, rfl⟩
    simp [Sidekick.evaluator, ho]
  | raised e =>
    refine ⟨⟨Role.assistant,
      "Evaluator encountered an error: " ++ e.originalErrorName ++
        ". Requesting user input to proceed.", [], none, none⟩, ?_, rfl⟩
    simp [Sidekick.evaluator, ho]
  | fellThrough => exact absurd ho (invoke_with_retry_sync_no_fall _ 3 _ (by omega))

/-- Message list after the worker step: the prepared state list plus
the single worker message. -/
theorem workerStep_messages (sk : Sidekick) (s : State) :
    ∃ wm, (sk.workerStep s).messages = (sk.workerPrepared s).1 ++ [wm] ∧
      (sk.worker s).2.messages = [wm] := by
  obtain ⟨wm, hw⟩ := worker_update_shape sk s
  have h1 : (sk.worker s).1 = (sk.workerPrepared s).1 := rfl
  refine ⟨wm, ?_, by rw [hw]⟩
  simp [Sidekick.workerStep, applyUpdate, hw, h1]

/-- Message list after the evaluator step: the incoming list plus the
evaluator messages. -/
theorem evalStep_messages (sk : Sidekick) (v : State) :
    (sk.evalStep v).messages = v.messages ++ (sk.evaluator v).messages := rfl

/-- Indexing two before the end of a list ending in [a, b]. -/
theorem getD_append_pair_left {α : Type} (xs : List α) (a b d : α) :
    (xs ++ [a, b]).getD xs.length d = a := by
  induction xs with
  | nil => rfl
  | cons x t ih => simpa using ih

/-- Indexing one before the end of a list ending in [a, b]. -/
theorem getD_append_pair_right {α : Type} (xs : List α) (a b d : α) :
    (xs ++ [a, b]).getD (xs.length + 1) d = b := by
  induction xs with
  | nil => rfl
  | cons x t ih => simpa using ih

/-- Whenever a graph run reaches END, the final state was produced by
an evaluator step that directly followed a worker step. -/
theorem runGraph_terminal_shape (sk : Sidekick) :
    ∀ (fuel : Nat) (node : GNode) (s fin : State),
      sk.runGraph fuel node s = some fin →
      (node = GNode.evaluator → ∃ w, s = sk.workerStep w) →
      ∃ u, fin = sk.evalStep (sk.workerStep u) := by
  intro fuel
  induction fuel with
  | zero => intro node s fin h _; simp [Sidekick.runGraph] at h
  | succ n ih =>
    intro node s fin h hside
    cases node with
    | worker =>
      simp only [Sidekick.runGraph] at h
      split at h
      · exact ih GNode.tools _ _ h (fun hc => absurd hc (by decide))
      · exact ih GNode.evaluator _ _ h (fun _ => ⟨s, rfl⟩)
    | tools =>
      simp only [Sidekick.runGraph] at h
      exact ih GNode.worker _ _ h (fun hc => absurd hc (by decide))
    | evaluator =>
      obtain ⟨w, rfl⟩ := hside rfl
      simp only [Sidekick.runGraph] at h
      split at h
      · exact ⟨w, (Option.some.inj h).symm⟩
      · exact ih GNode.worker _ _ h (fun hc => absurd hc (by decide))

/-- Claim C7: run_superstep seeds the state with the user message, the
resolved success criterion (the fixed default for a missing or empty
one), cleared feedback and false flags; and on a terminating run the
returned transcript is the prior history plus exactly three entries:
the user message, an assistant entry carrying the final worker
message, and an assistant entry carrying the evaluator message. -/
theorem run_superstep_spec (sk : Sidekick) (fuel : Nat) (m : String)
    (c : Option String) (hist : List ChatEntry) (fin : State)
    (h : sk.runGraph fuel GNode.worker (initialTurnState m c) = some fin) :
    ((c = none ∨ c = some "") →
      (initialTurnState m c).success_criteria = "The answer should be clear and accurate")
    ∧ (∀ s, c = some s → s ≠ "" → (initialTurnState m c).success_criteria = s)
    ∧ (initialTurnState m c).feedback_on_work = none
    ∧ (initialTurnState m c).success_criteria_met = false
    ∧ (initialTurnState m c).user_input_needed = false
    ∧ (initialTurnState m c).messages = [{ role := Role.user, content := m }]
    ∧ ∃ u wm em,
        fin = sk.evalStep (sk.workerStep u)
        ∧ (sk.worker u).2.messages = [wm]
        ∧ (sk.evaluator (sk.workerStep u)).messages = [em]
        ∧ em.role = Role.assistant
        ∧ sk.run_superstep fuel m c hist =
            some (hist ++
              [{ role := "user", content := m },
               { role := "assistant", content := wm.content },
               { role := "assistant", content := em.content }]) := by
  refine ⟨?_, ?_, rfl, rfl, rfl, rfl, ?_⟩
  · rintro (rfl | rfl) <;> rfl
  · intro s hc hs
    subst hc
    simp [initialTurnState, hs]
  · obtain ⟨u, hu⟩ := runGraph_terminal_shape sk fuel GNode.worker _ fin h
      (fun hc => absurd hc (by decide))
    obtain ⟨wm, hwsm, hwm⟩ := workerStep_messages sk u
    obtain ⟨em, hem, hrole⟩ := evaluator_update_shape sk (sk.workerStep u)
    have hfinm : fin.messages = (sk.workerPrepared u).1 ++ [wm, em] := by
      rw [hu, evalStep_messages, hwsm, hem, List.append_assoc]
      rfl
    have hlen : fin.messages.length = (sk.workerPrepared u).1.length + 2 := by
      rw [hfinm]; simp
    have hidx2 : fin.messages.getD (fin.messages.length - 2) defaultMessage = wm := by
      rw [hlen]
      have h2 : (sk.workerPrepared u).1.length + 2 - 2 = (sk.workerPrepared u).1.length := by
        omega
      rw [h2, hfinm, getD_append_pair_left]
    have hidx1 : fin.messages.getD (fin.messages.length - 1) defaultMessage = em := by
      rw [hlen]
      have h2 : (sk.workerPrepared u).1.length + 2 - 1 =
          (sk.workerPrepared u).1.length + 1 := by omega
      rw [h2, hfinm, getD_append_pair_right]
    refine ⟨u, wm, em, hu, hwm, hem, hrole, ?_⟩
    unfold Sidekick.run_superstep
    rw [h]
    dsimp only
    rw [hidx2, hidx1]

/-- Witness for C7: the end-to-end stub scenario of the spec.  The
worker answers "Hello there!", the evaluator accepts, and one turn
produces exactly the three expected transcript entries. -/
theorem run_superstep_spec_witness :
    stubSidekickOk.run_superstep 2 "Say hello"
      (some "Response must contain the word hello") [] =
      some [{ role := "user", content := "Say hello" },
            { role := "assistant", content := "Hello there!" },
            { role := "assistant"
              content := "Evaluator Feedback on this answer: contains hello" }] := by
  have hsome : (stubSidekickOk.runGraph 2 GNode.worker
      (initialTurnState "Say hello" (some "Response must contain the word hello"))).isSome =
      true := rfl
  obtain ⟨-, -, -, -, -, -, u, wm, em, hfin, hwm, hem, hrole, heq⟩ :=
    run_superstep_spec stubSidekickOk 2 "Say hello"
      (some "Response must contain the word hello") []
      ((stubSidekickOk.runGraph 2 GNode.worker
        (initialTurnState "Say hello" (some "Response must contain the word hello"))).get hsome)
      (Option.some_get hsome).symm
  have hwm2 : (stubSidekickOk.worker u).2.messages =
      [{ role := Role.assistant, content := "Hello there!" }] := rfl
  have hem2 : (stubSidekickOk.evaluator (stubSidekickOk.workerStep u)).messages =
      [{ role := Role.assistant
         content := "Evaluator Feedback on this answer: contains hello" }] := rfl
  rw [hwm2] at hwm
  rw [hem2] at hem
  injection hwm with hwm1 _
  injection hem with hem1 _
  subst hwm1
  subst hem1
  simpa using heq

/-- A try/except around an awaited release call never re-raises. -/
theorem catchAndLog_ok (x : Except PyError Unit) : catchAndLog x = Except.ok () := by
  cases x <;> rfl

/-- Claim C8: cleanup never raises (whatever the release outcomes and
however often it is called), leaves the instance unchanged, and still
attempts the playwright release when the browser release fails. -/
theorem cleanup_never_raises (sk : Sidekick) :
    (∃ t, sk.cleanup = Except.ok (sk, t))
    ∧ (∃ t, cleanupTwice sk = Except.ok (sk, t))
    ∧ (∀ e p, sk.browser = some (Except.error e) → sk.playwright = some p →
        sk.cleanup = Except.ok (sk, ⟨true, true⟩)) := by
  have hone : ∃ t, sk.cleanup = Except.ok (sk, t) := by
    unfold Sidekick.cleanup
    cases hb : sk.browser with
    | none => exact ⟨⟨false, false⟩, rfl⟩
    | some closeOutcome =>
      dsimp only
      rw [catchAndLog_ok]
      cases hp : sk.playwright with
      | none => exact ⟨⟨true, false⟩, rfl⟩
      | some stopOutcome =>
        dsimp only
        rw [catchAndLog_ok]
        exact ⟨⟨true, true⟩, rfl⟩
  refine ⟨hone, ?_, ?_⟩
  · obtain ⟨t, ht⟩ := hone
    refine ⟨t, ?_⟩
    unfold cleanupTwice
    rw [ht]
    exact ht
  · intro e p hb hp
    unfold Sidekick.cleanup
    simp only [hb, hp, catchAndLog_ok]
    rfl

/-- Witness for C8: a browser whose close always raises with an
attached playwright handle: cleanup still succeeds and still attempts
the playwright stop; a second call also succeeds. -/
theorem cleanup_never_raises_witness :
    stubSidekickBadBrowser.cleanup =
      Except.ok (stubSidekickBadBrowser, ⟨true, true⟩)
    ∧ (∃ t, cleanupTwice stubSidekickBadBrowser =
        Except.ok (stubSidekickBadBrowser, t)) :=
  ⟨(cleanup_never_raises stubSidekickBadBrowser).2.2
      (PyError.otherError "TargetClosedError" "browser already closed")
      (Except.ok ()) rfl rfl,
    (cleanup_never_raises stubSidekickBadBrowser).2.1⟩

/-- Claim C10: with no browser set, cleanup returns at once without
attempting any release, even when a playwright handle is set. -/
theorem cleanup_skips_when_no_browser (sk : Sidekick) (h : sk.browser = none) :
    sk.cleanup = Except.ok (sk, ⟨false, false⟩) := by
  unfold Sidekick.cleanup
  rw [h]

/-- Witness for C10: a playwright handle is set, the browser is not;
neither release is attempted. -/
theorem cleanup_skips_when_no_browser_witness :
    stubSidekickPlaywrightOnly.cleanup =
      Except.ok (stubSidekickPlaywrightOnly, ⟨false, false⟩) :=
  cleanup_skips_when_no_browser stubSidekickPlaywrightOnly rfl

end Assistant
